import Mathlib

/-!
Verification of the JobSpy API request-orchestration core (`app/main.py`).

The embedding models:
* the pydantic `JobSearchRequest` schema (fields, defaults, range checks),
* `clean_search_params` (the parameter normalizer),
* `convert_dataframe_to_dict` (tabular-to-record conversion),
* the `/search` handler `search_jobs` (engine seam, error translation,
  response envelope), and
* the constant `/sites` document and the `/` and `/health` endpoints.

Python `None` is modelled by `Option.none`; a pydantic request body in which
a field may be omitted, explicitly `null`, or carry a value is modelled by
`Option (Option _)`. Heterogeneous JSON-ish values are the `Value` type.
Wall-clock durations are an abstract tick count (`Int`), since no verified
property depends on the measured time.
-/

set_option autoImplicit false

namespace JobSpyApi

/-- A JSON-like parameter or cell value, as passed to the engine or returned
in a job record. -/
inductive Value where
  | str (s : String)
  | int (n : Int)
  | bool (b : Bool)
  | strList (l : List String)
  | intList (l : List Int)
  deriving DecidableEq, Repr

/-- The validated, fully-defaulted request object: mirrors the pydantic model
`JobSearchRequest` in `app/main.py` (every field is `Optional` in the source,
hence `Option` here). -/
structure JobSearchRequest where
  site_name : Option (List String)
  search_term : Option String
  google_search_term : Option String
  location : Option String
  results_wanted : Option Int
  hours_old : Option Int
  job_type : Option String
  is_remote : Option Bool
  distance : Option Int
  country_indeed : Option String
  easy_apply : Option Bool
  description_format : Option String
  linkedin_fetch_description : Option Bool
  linkedin_company_ids : Option (List Int)
  offset : Option Int
  enforce_annual_salary : Option Bool
  proxies : Option (List String)
  ca_cert : Option String
  verbose : Option Int
  deriving DecidableEq, Repr

/-- A raw request body before validation: each field is either omitted
(`none`, pydantic then applies the declared default), explicitly `null`
(`some none`), or explicitly a value (`some (some v)`). -/
structure RawSearchRequest where
  site_name : Option (Option (List String)) := none
  search_term : Option (Option String) := none
  google_search_term : Option (Option String) := none
  location : Option (Option String) := none
  results_wanted : Option (Option Int) := none
  hours_old : Option (Option Int) := none
  job_type : Option (Option String) := none
  is_remote : Option (Option Bool) := none
  distance : Option (Option Int) := none
  country_indeed : Option (Option String) := none
  easy_apply : Option (Option Bool) := none
  description_format : Option (Option String) := none
  linkedin_fetch_description : Option (Option Bool) := none
  linkedin_company_ids : Option (Option (List Int)) := none
  offset : Option (Option Int) := none
  enforce_annual_salary : Option (Option Bool) := none
  proxies : Option (Option (List String)) := none
  ca_cert : Option (Option String) := none
  verbose : Option (Option Int) := none
  deriving DecidableEq, Repr

/-- `Field(ge=lo, le=hi)` on an `Optional[int]`: the bound is checked only
when the value is a present integer; an explicit `null` passes. -/
def intRangeBad (lo hi : Int) : Option Int → Bool
  | none => false
  | some n => n < lo || hi < n

/-- The field-level validation errors pydantic reports for a raw body:
`results_wanted` carries `ge=1, le=1000` and `verbose` carries `ge=0, le=2`
(lines 45-47 and 88 of `app/main.py`); no other field has a constraint. -/
def fieldErrors (raw : RawSearchRequest) : List String :=
  (if intRangeBad 1 1000 (raw.results_wanted.getD (some 20)) then
    ["results_wanted"] else []) ++
  (if intRangeBad 0 2 (raw.verbose.getD (some 1)) then ["verbose"] else [])

/-- Pydantic validation of the request body: reject with the offending field
names, or apply the declared defaults of `JobSearchRequest` and accept. -/
def validate (raw : RawSearchRequest) : Except (List String) JobSearchRequest :=
  match fieldErrors raw with
  | [] => Except.ok
      { site_name := raw.site_name.getD (some ["indeed", "linkedin", "glassdoor"])
        search_term := raw.search_term.getD none
        google_search_term := raw.google_search_term.getD none
        location := raw.location.getD none
        results_wanted := raw.results_wanted.getD (some 20)
        hours_old := raw.hours_old.getD none
        job_type := raw.job_type.getD none
        is_remote := raw.is_remote.getD none
        distance := raw.distance.getD (some 50)
        country_indeed := raw.country_indeed.getD (some "USA")
        easy_apply := raw.easy_apply.getD none
        description_format := raw.description_format.getD (some "markdown")
        linkedin_fetch_description := raw.linkedin_fetch_description.getD (some false)
        linkedin_company_ids := raw.linkedin_company_ids.getD none
        offset := raw.offset.getD none
        enforce_annual_salary := raw.enforce_annual_salary.getD none
        proxies := raw.proxies.getD none
        ca_cert := raw.ca_cert.getD none
        verbose := raw.verbose.getD (some 1) }
  | errs => Except.error errs

/-- `request.model_dump()`: the dict of all declared fields in declaration
order, unset/null fields mapping to Python `None` (`Option.none`). -/
def model_dump (r : JobSearchRequest) : List (String × Option Value) :=
  [ ("site_name", r.site_name.map Value.strList),
    ("search_term", r.search_term.map Value.str),
    ("google_search_term", r.google_search_term.map Value.str),
    ("location", r.location.map Value.str),
    ("results_wanted", r.results_wanted.map Value.int),
    ("hours_old", r.hours_old.map Value.int),
    ("job_type", r.job_type.map Value.str),
    ("is_remote", r.is_remote.map Value.bool),
    ("distance", r.distance.map Value.int),
    ("country_indeed", r.country_indeed.map Value.str),
    ("easy_apply", r.easy_apply.map Value.bool),
    ("description_format", r.description_format.map Value.str),
    ("linkedin_fetch_description", r.linkedin_fetch_description.map Value.bool),
    ("linkedin_company_ids", r.linkedin_company_ids.map Value.intList),
    ("offset", r.offset.map Value.int),
    ("enforce_annual_salary", r.enforce_annual_salary.map Value.bool),
    ("proxies", r.proxies.map Value.strList),
    ("ca_cert", r.ca_cert.map Value.str),
    ("verbose", r.verbose.map Value.int) ]

/-- `clean_search_params` (`app/main.py` lines 113-115):
`{k: v for k, v in params.items() if v is not None}`. -/
def clean_search_params (params : List (String × Option Value)) :
    List (String × Value) :=
  params.filterMap (fun kv => kv.2.map (fun v => (kv.1, v)))

/-- One cell of the engine's tabular result: either a value or the engine's
missing-value marker (pandas `NaN` / sentinel null, i.e. `pd.notnull` false). -/
inductive Cell where
  | missing
  | val (v : Value)
  deriving DecidableEq, Repr

/-- The engine's tabular result (a pandas `DataFrame`): named columns and
rows of cells. -/
structure DataFrame where
  columns : List String
  rows : List (List Cell)
  deriving DecidableEq, Repr

/-- `df.where(pd.notnull(df), None)` applied to one cell: a missing cell
becomes explicit `None`, any other cell is unchanged. -/
def cellToValue : Cell → Option Value
  | Cell.missing => none
  | Cell.val v => some v

/-- `convert_dataframe_to_dict` (`app/main.py` lines 107-110): replace every
missing cell by `None`, then `to_dict("records")` — one dict per row pairing
column names with (possibly null) cell values. -/
def convert_dataframe_to_dict (df : DataFrame) :
    List (List (String × Option Value)) :=
  df.rows.map (fun row => df.columns.zip (row.map cellToValue))

/-- The `JobSearchResponse` pydantic model (`app/main.py` lines 91-97);
`execution_time` is an abstract tick count. -/
structure JobSearchResponse where
  success : Bool
  total_jobs : Nat
  jobs : List (List (String × Option Value))
  search_params : List (String × Value)
  execution_time : Int
  message : String
  deriving DecidableEq, Repr

/-- An `HTTPException` raised by the handler: status code and detail text. -/
structure HTTPError where
  status_code : Nat
  detail : String
  deriving DecidableEq, Repr

/-- The engine seam: `jobspy.scrape_jobs(**search_params)`, which either
returns a tabular result or raises a fault carrying a message. -/
def EngineFn : Type := List (String × Value) → Except String DataFrame

/-- The `/search` handler body (`app/main.py` lines 135-168) on a validated
request. `engine = none` models the conditional `from jobspy import
scrape_jobs` raising `ImportError`; `elapsed` is the measured wall-clock
duration. -/
def search_jobs (engine : Option EngineFn) (elapsed : Int)
    (request : JobSearchRequest) : Except HTTPError JobSearchResponse :=
  match engine with
  | none => Except.error ⟨500, "JobSpy library not available"⟩
  | some scrape_jobs =>
    let search_params := clean_search_params (model_dump request)
    match scrape_jobs search_params with
    | Except.error e => Except.error ⟨500, "Search failed: " ++ e⟩
    | Except.ok jobs_df =>
      let jobs_list := convert_dataframe_to_dict jobs_df
      Except.ok
        { success := true
          total_jobs := jobs_list.length
          jobs := jobs_list
          search_params := search_params
          execution_time := elapsed
          message := "Successfully found " ++ toString jobs_list.length ++ " jobs" }

/-- Outcome of a full `POST /search` round trip, as seen by the client. -/
inductive SearchOutcome where
  | invalid (fields : List String)
  | httpError (e : HTTPError)
  | success (resp : JobSearchResponse)
  deriving DecidableEq, Repr

/-- The full `POST /search` pipeline: FastAPI validates the body against
`JobSearchRequest` (422 on failure, before the handler runs), then the
handler runs. The second component counts invocations of the engine's
`scrape_jobs` entry point. -/
def handle_search (engine : Option EngineFn) (elapsed : Int)
    (raw : RawSearchRequest) : SearchOutcome × Nat :=
  match validate raw with
  | Except.error errs => (SearchOutcome.invalid errs, 0)
  | Except.ok request =>
    match engine with
    | none => (SearchOutcome.httpError ⟨500, "JobSpy library not available"⟩, 0)
    | some f =>
      match search_jobs (some f) elapsed request with
      | Except.error e => (SearchOutcome.httpError e, 1)
      | Except.ok resp => (SearchOutcome.success resp, 1)

/-- The `HealthResponse` pydantic model (`app/main.py` lines 100-103). -/
structure HealthResponse where
  status : String
  version : String
  timestamp : String
  deriving DecidableEq, Repr

/-- Ambient runtime state the endpoints can observe; the only piece any of
them reads is the current clock (`datetime.now().isoformat()`). -/
structure World where
  now : String
  deriving DecidableEq, Repr

/-- `GET /` (`app/main.py` lines 119-124). -/
def root (w : World) : HealthResponse :=
  { status := "healthy", version := "1.0.0", timestamp := w.now }

/-- `GET /health` (`app/main.py` lines 127-132). -/
def health_check (w : World) : HealthResponse :=
  { status := "healthy", version := "1.0.0", timestamp := w.now }

/-- The static document returned by `GET /sites`. -/
structure CapabilitiesDocument where
  supported_sites : List String
  job_types : List String
  description_formats : List String
  indeed_glassdoor_countries : List String
  linkedin_countries : String
  zip_recruiter_countries : String
  bayt_countries : String
  google_countries : String
  naukri_countries : String
  limitations : List (String × String)
  tips : List (String × String)
  deriving DecidableEq, Repr

/-- `GET /sites` (`app/main.py` lines 171-268): returns the literal document;
the handler reads no runtime state. -/
def get_supported_sites (_w : World) : CapabilitiesDocument :=
  { supported_sites :=
      ["linkedin", "indeed", "glassdoor", "zip_recruiter", "google", "bayt",
        "naukri"]
    job_types := ["fulltime", "parttime", "internship", "contract"]
    description_formats := ["markdown", "html"]
    indeed_glassdoor_countries :=
      ["Argentina", "Australia", "Austria", "Bahrain", "Belgium", "Brazil",
        "Canada", "Chile", "China", "Colombia", "Costa Rica", "Czech Republic",
        "Denmark", "Ecuador", "Egypt", "Finland", "France", "Germany",
        "Greece", "Hong Kong", "Hungary", "India", "Indonesia", "Ireland",
        "Israel", "Italy", "Japan", "Kuwait", "Luxembourg", "Malaysia",
        "Mexico", "Morocco", "Netherlands", "New Zealand", "Nigeria",
        "Norway", "Oman", "Pakistan", "Panama", "Peru", "Philippines",
        "Poland", "Portugal", "Qatar", "Romania", "Saudi Arabia", "Singapore",
        "South Africa", "South Korea", "Spain", "Sweden", "Switzerland",
        "Taiwan", "Thailand", "Turkey", "Ukraine", "United Arab Emirates",
        "UK", "USA", "Uruguay", "Venezuela", "Vietnam"]
    linkedin_countries := "Global (uses location parameter)"
    zip_recruiter_countries := "US/Canada only"
    bayt_countries := "International"
    google_countries := "Global (requires google_search_term)"
    naukri_countries := "India focused"
    limitations :=
      [("indeed", "Only one of: hours_old, (job_type & is_remote), easy_apply"),
        ("linkedin",
          "Only one of: hours_old, easy_apply. Rate limited ~10 pages per IP"),
        ("google", "Requires specific google_search_term syntax"),
        ("general", "All sites capped at ~1000 jobs per search")]
    tips :=
      [("indeed_search",
        "Use quotes for exact match, - to exclude, OR for alternatives. Example: \x27\"engineering intern\" software summer (java OR python OR c++) 2025 -tax -marketing\x27"),
        ("google_search",
          "Copy exact search from Google Jobs browser after applying filters"),
        ("rate_limiting",
          "Use proxies for LinkedIn, wait between scrapes, Indeed has no rate limiting")] }

/-- The request in which every optional field is left unset: `validate` on
the empty body produces exactly the declared defaults. -/
def defaultRequest : JobSearchRequest :=
  { site_name := some ["indeed", "linkedin", "glassdoor"]
    search_term := none
    google_search_term := none
    location := none
    results_wanted := some 20
    hours_old := none
    job_type := none
    is_remote := none
    distance := some 50
    country_indeed := some "USA"
    easy_apply := none
    description_format := some "markdown"
    linkedin_fetch_description := some false
    linkedin_company_ids := none
    offset := none
    enforce_annual_salary := none
    proxies := none
    ca_cert := none
    verbose := some 1 }

/-- Membership in the normalizer's output is exactly presence with a
non-null value in the input dict. -/
theorem mem_clean_search_params (params : List (String × Option Value))
    (k : String) (w : Value) :
    (k, w) ∈ clean_search_params params ↔ (k, some w) ∈ params := by
  constructor
  · intro h
    obtain ⟨⟨a, b⟩, hmem, hf⟩ := List.mem_filterMap.1 h
    obtain ⟨v, hv, hkv⟩ := Option.map_eq_some'.1 hf
    injection hkv with h1 h2
    subst h1; subst h2; subst hv
    exact hmem
  · intro h
    exact List.mem_filterMap.2 ⟨(k, some w), h, rfl⟩

/-- The keys of `model_dump` are the 19 declared field names, in order. -/
theorem model_dump_keys (r : JobSearchRequest) :
    (model_dump r).map Prod.fst =
      ["site_name", "search_term", "google_search_term", "location",
        "results_wanted", "hours_old", "job_type", "is_remote", "distance",
        "country_indeed", "easy_apply", "description_format",
        "linkedin_fetch_description", "linkedin_company_ids", "offset",
        "enforce_annual_salary", "proxies", "ca_cert", "verbose"] := rfl

/-- Claim C1: for every valid SearchRequest, the normalizer's output
contains a key exactly when the dumped request holds a present (non-null)
value for it — so a key whose source value is absent never appears, and a
key whose value is explicitly 0, false, or an empty sequence is never
dropped (removal is keyed on absence, not falsiness). -/
theorem normalizer_removes_only_absent (r : JobSearchRequest) (k : String) :
    (∀ w : Value, ((k, w) ∈ clean_search_params (model_dump r) ↔
      (k, some w) ∈ model_dump r)) ∧
    ((k, none) ∈ model_dump r →
      ∀ w : Value, (k, w) ∉ clean_search_params (model_dump r)) := by
  refine ⟨fun w => mem_clean_search_params _ _ _, fun habs w hw => ?_⟩
  have h2 : (k, some w) ∈ model_dump r := (mem_clean_search_params _ _ _).1 hw
  have hnd : ((model_dump r).map Prod.fst).Nodup := by
    rw [model_dump_keys]; decide
  have heq := List.inj_on_of_nodup_map hnd habs h2 rfl
  simp at heq

/-- Witness for C1 at a concrete request: `hours_old` is unset and indeed
absent from the normalized output, while the explicitly-false
`linkedin_fetch_description` is kept. -/
theorem normalizer_removes_only_absent_witness :
    (∀ w : Value,
      ("hours_old", w) ∉ clean_search_params (model_dump defaultRequest)) ∧
    ("linkedin_fetch_description", Value.bool false) ∈
      clean_search_params (model_dump defaultRequest) := by
  refine ⟨(normalizer_removes_only_absent defaultRequest "hours_old").2
    (by decide), ?_⟩
  exact ((normalizer_removes_only_absent defaultRequest
    "linkedin_fetch_description").1 (Value.bool false)).2 (by decide)

/-- Claim C2: validating the empty body (every optional field unset) yields
the fully-defaulted request, and normalizing it produces exactly the seven
declared defaults of §4.1 and no other keys. -/
theorem defaults_roundtrip :
    validate {} = Except.ok defaultRequest ∧
    clean_search_params (model_dump defaultRequest) =
      [("site_name", Value.strList ["indeed", "linkedin", "glassdoor"]),
        ("results_wanted", Value.int 20),
        ("distance", Value.int 50),
        ("country_indeed", Value.str "USA"),
        ("description_format", Value.str "markdown"),
        ("linkedin_fetch_description", Value.bool false),
        ("verbose", Value.int 1)] := by
  exact ⟨rfl, rfl⟩

/-- Anything `search_jobs` successfully returns satisfies the envelope
contract: success flag set, job count equal to the number of rows, the
normalized parameters echoed, the elapsed time recorded, and the summary
message built from the same count. -/
theorem search_jobs_ok_spec (engine : Option EngineFn) (elapsed : Int)
    (request : JobSearchRequest) (resp : JobSearchResponse)
    (h : search_jobs engine elapsed request = Except.ok resp) :
    resp.success = true ∧ resp.total_jobs = resp.jobs.length ∧
    resp.search_params = clean_search_params (model_dump request) ∧
    resp.execution_time = elapsed ∧
    resp.message = "Successfully found " ++ toString resp.jobs.length
      ++ " jobs" := by
  cases engine with
  | none => simp [search_jobs] at h
  | some f =>
    simp only [search_jobs] at h
    split at h
    · simp at h
    · injection h with h'
      subst h'
      exact ⟨rfl, rfl, rfl, rfl, rfl⟩

/-- When `fieldErrors` is nonempty, validation fails with exactly those
field names. -/
theorem validate_error_of_fieldErrors (raw : RawSearchRequest)
    (h : fieldErrors raw ≠ []) :
    validate raw = Except.error (fieldErrors raw) := by
  unfold validate
  split
  · rename_i heq; exact absurd heq h
  · rfl

/-- A present `results_wanted` outside [1, 1000] is reported by name. -/
theorem results_wanted_flagged (raw : RawSearchRequest) (n : Int)
    (hn : raw.results_wanted = some (some n)) (hout : n < 1 ∨ 1000 < n) :
    "results_wanted" ∈ fieldErrors raw := by
  have hcond : intRangeBad 1 1000 (raw.results_wanted.getD (some 20)) = true := by
    rw [hn]
    simpa [intRangeBad] using hout
  simp [fieldErrors, hcond]

/-- A present `verbose` outside [0, 2] is reported by name. -/
theorem verbose_flagged (raw : RawSearchRequest) (n : Int)
    (hn : raw.verbose = some (some n)) (hout : n < 0 ∨ 2 < n) :
    "verbose" ∈ fieldErrors raw := by
  have hcond : intRangeBad 0 2 (raw.verbose.getD (some 1)) = true := by
    rw [hn]
    simpa [intRangeBad] using hout
  simp [fieldErrors, hcond]

/-- Claim C3: a request whose `results_wanted` lies outside [1,1000] or
whose `verbose` lies outside [0,2] is rejected with a validation error
naming the offending field, and the engine is invoked zero times. -/
theorem out_of_range_rejected_before_engine (engine : Option EngineFn)
    (elapsed : Int) (raw : RawSearchRequest)
    (h : (∃ n : Int, raw.results_wanted = some (some n) ∧ (n < 1 ∨ 1000 < n)) ∨
         (∃ n : Int, raw.verbose = some (some n) ∧ (n < 0 ∨ 2 < n))) :
    (handle_search engine elapsed raw).1 =
      SearchOutcome.invalid (fieldErrors raw) ∧
    ((∃ n : Int, raw.results_wanted = some (some n) ∧ (n < 1 ∨ 1000 < n)) →
      "results_wanted" ∈ fieldErrors raw) ∧
    ((∃ n : Int, raw.verbose = some (some n) ∧ (n < 0 ∨ 2 < n)) →
      "verbose" ∈ fieldErrors raw) ∧
    (handle_search engine elapsed raw).2 = 0 := by
  have hne : fieldErrors raw ≠ [] := by
    rcases h with ⟨n, hn, hout⟩ | ⟨n, hn, hout⟩
    · exact List.ne_nil_of_mem (results_wanted_flagged raw n hn hout)
    · exact List.ne_nil_of_mem (verbose_flagged raw n hn hout)
  have hv := validate_error_of_fieldErrors raw hne
  refine ⟨by simp [handle_search, hv], ?_, ?_, by simp [handle_search, hv]⟩
  · rintro ⟨n, hn, hout⟩
    exact results_wanted_flagged raw n hn hout
  · rintro ⟨n, hn, hout⟩
    exact verbose_flagged raw n hn hout

/-- Scenario B request: `results_wanted = 2000`, everything else unset. -/
def rawOverLimit : RawSearchRequest := { results_wanted := some (some 2000) }

/-- A two-row tabular result used as a concrete engine output. -/
def sampleDf : DataFrame :=
  { columns := ["title", "company"]
    rows := [[Cell.val (Value.str "dev"), Cell.missing],
      [Cell.missing, Cell.val (Value.str "acme")]] }

/-- A concrete engine that always returns `sampleDf`. -/
def sampleEngine : EngineFn := fun _ => Except.ok sampleDf

/-- Witness for C3 at scenario B: `results_wanted = 2000` is rejected
naming `results_wanted`, with zero engine invocations. -/
theorem out_of_range_rejected_before_engine_witness :
    (handle_search (some sampleEngine) 3 rawOverLimit).1 =
      SearchOutcome.invalid (fieldErrors rawOverLimit) ∧
    ((∃ n : Int, rawOverLimit.results_wanted = some (some n) ∧
        (n < 1 ∨ 1000 < n)) →
      "results_wanted" ∈ fieldErrors rawOverLimit) ∧
    ((∃ n : Int, rawOverLimit.verbose = some (some n) ∧ (n < 0 ∨ 2 < n)) →
      "verbose" ∈ fieldErrors rawOverLimit) ∧
    (handle_search (some sampleEngine) 3 rawOverLimit).2 = 0 :=
  out_of_range_rejected_before_engine (some sampleEngine) 3 rawOverLimit
    (Or.inl ⟨2000, rfl, Or.inr (by decide)⟩)

/-- Claim C4: every successful search response has `success = true`,
`total_jobs` equal to the length of the returned job sequence, the
normalized parameters that were used, and the message
`"Successfully found {n} jobs"` for that same length. -/
theorem success_envelope_consistent (engine : Option EngineFn) (elapsed : Int)
    (request : JobSearchRequest) (resp : JobSearchResponse)
    (h : search_jobs engine elapsed request = Except.ok resp) :
    resp.success = true ∧ resp.total_jobs = resp.jobs.length ∧
    resp.search_params = clean_search_params (model_dump request) ∧
    resp.message = "Successfully found " ++ toString resp.jobs.length
      ++ " jobs" :=
  ⟨(search_jobs_ok_spec _ _ _ _ h).1, (search_jobs_ok_spec _ _ _ _ h).2.1,
    (search_jobs_ok_spec _ _ _ _ h).2.2.1,
    (search_jobs_ok_spec _ _ _ _ h).2.2.2.2⟩

/-- The concrete successful response produced by `sampleEngine` on the
fully-defaulted request. -/
def sampleResp : JobSearchResponse :=
  { success := true
    total_jobs := 2
    jobs := convert_dataframe_to_dict sampleDf
    search_params := clean_search_params (model_dump defaultRequest)
    execution_time := 3
    message := "Successfully found 2 jobs" }

/-- Witness for C4 on a concrete successful search. -/
theorem success_envelope_consistent_witness :
    sampleResp.success = true ∧ sampleResp.total_jobs = sampleResp.jobs.length ∧
    sampleResp.search_params = clean_search_params (model_dump defaultRequest) ∧
    sampleResp.message = "Successfully found "
      ++ toString sampleResp.jobs.length ++ " jobs" :=
  success_envelope_consistent (some sampleEngine) 3 defaultRequest sampleResp rfl

/-- Claim C5: when the engine cannot be imported the search fails with the
fixed 500 detail `"JobSpy library not available"`; when the engine raises,
the search fails with a 500 whose detail embeds the fault message verbatim,
and no success envelope (hence no job rows, no `total_jobs`) is produced. -/
theorem engine_faults_surface_as_server_errors (elapsed : Int)
    (request : JobSearchRequest) (f : EngineFn) (msg : String)
    (hf : f (clean_search_params (model_dump request)) = Except.error msg) :
    search_jobs none elapsed request =
      Except.error ⟨500, "JobSpy library not available"⟩ ∧
    search_jobs (some f) elapsed request =
      Except.error ⟨500, "Search failed: " ++ msg⟩ ∧
    ∀ resp : JobSearchResponse,
      search_jobs (some f) elapsed request ≠ Except.ok resp := by
  have h2 : search_jobs (some f) elapsed request =
      Except.error ⟨500, "Search failed: " ++ msg⟩ := by
    simp only [search_jobs]
    rw [hf]
  exact ⟨rfl, h2, fun resp hok => by rw [h2] at hok; simp at hok⟩

/-- A concrete engine that always raises with message `"rate limited"`. -/
def faultyEngine : EngineFn := fun _ => Except.error "rate limited"

/-- Witness for C5 with a concrete raising engine. -/
theorem engine_faults_surface_as_server_errors_witness :
    search_jobs none 0 defaultRequest =
      Except.error ⟨500, "JobSpy library not available"⟩ ∧
    search_jobs (some faultyEngine) 0 defaultRequest =
      Except.error ⟨500, "Search failed: " ++ "rate limited"⟩ ∧
    ∀ resp : JobSearchResponse,
      search_jobs (some faultyEngine) 0 defaultRequest ≠ Except.ok resp :=
  engine_faults_surface_as_server_errors 0 defaultRequest faultyEngine
    "rate limited" rfl

/-- Claim C10: every success envelope the pipeline ever constructs has
`success = true`; a `success = false` envelope is unreachable because all
failure paths raise an HTTP error instead of building a response. -/
theorem success_flag_always_true (engine : Option EngineFn) (elapsed : Int)
    (raw : RawSearchRequest) (resp : JobSearchResponse)
    (h : (handle_search engine elapsed raw).1 = SearchOutcome.success resp) :
    resp.success = true := by
  unfold handle_search at h
  split at h
  · simp at h
  · split at h
    · simp at h
    · split at h
      · simp at h
      · rename_i hs
        simp at h
        subst h
        exact (search_jobs_ok_spec _ _ _ _ hs).1

/-- Witness for C10 on a concrete end-to-end successful request. -/
theorem success_flag_always_true_witness : sampleResp.success = true :=
  success_flag_always_true (some sampleEngine) 3 {} sampleResp rfl

/-- Claim C6: in the tabular-to-record conversion, every cell the engine
marks as missing becomes an explicit null in the corresponding record, and
every non-missing cell is carried over unchanged, at every row and column
position of every tabular result. -/
theorem conversion_normalizes_missing_cells (df : DataFrame) (i j : Nat)
    (row : List Cell) (c : Cell) (col : String)
    (hrow : df.rows[i]? = some row) (hc : row[j]? = some c)
    (hcol : df.columns[j]? = some col) :
    ∃ rec, (convert_dataframe_to_dict df)[i]? = some rec ∧
      rec[j]? = some (col, cellToValue c) ∧
      (c = Cell.missing → cellToValue c = none) ∧
      ∀ v : Value, c = Cell.val v → cellToValue c = some v := by
  refine ⟨df.columns.zip (row.map cellToValue), ?_, ?_, ?_, ?_⟩
  · simp [convert_dataframe_to_dict, hrow]
  · rw [List.getElem?_zip_eq_some]
    exact ⟨hcol, by simp [hc]⟩
  · rintro rfl; rfl
  · rintro v rfl; rfl

/-- Witness for C6 at a concrete frame: row 0 of `sampleDf` has a missing
`company` cell, which the conversion turns into an explicit null. -/
theorem conversion_normalizes_missing_cells_witness :
    ∃ rec, (convert_dataframe_to_dict sampleDf)[0]? = some rec ∧
      rec[1]? = some ("company", cellToValue Cell.missing) ∧
      (Cell.missing = Cell.missing → cellToValue Cell.missing = none) ∧
      ∀ v : Value, Cell.missing = Cell.val v →
        cellToValue Cell.missing = some v :=
  conversion_normalizes_missing_cells sampleDf 0 1
    [Cell.val (Value.str "dev"), Cell.missing] Cell.missing "company"
    rfl rfl rfl

/-- A raw body explicitly supplying an empty site list. -/
def rawEmptySites : RawSearchRequest := { site_name := some (some []) }

/-- A raw body supplying a site identifier outside the supported set. -/
def rawUnknownSite : RawSearchRequest :=
  { site_name := some (some ["myspace"]) }

/-- Counterexample to C7: the Parameter Model accepts an empty `site_name`
list and an unrecognized site identifier — no non-emptiness or membership
check exists on `site_name` — and such a request reaches orchestration (the
engine is invoked once). -/
theorem empty_site_name_accepted :
    validate rawEmptySites =
      Except.ok { defaultRequest with site_name := some [] } ∧
    validate rawUnknownSite =
      Except.ok { defaultRequest with site_name := some ["myspace"] } ∧
    (handle_search (some sampleEngine) 0 rawEmptySites).2 = 1 :=
  ⟨rfl, rfl, rfl⟩

/-- Claim C7 (amended): the Parameter Model imposes no constraint on
`site_name`: any provided list of strings — empty or with unrecognized
identifiers — passes validation unchanged whenever the numeric fields are
in range. -/
theorem site_name_unconstrained (raw : RawSearchRequest) (sites : List String)
    (hs : raw.site_name = some (some sites))
    (hok : fieldErrors raw = []) :
    ∃ request, validate raw = Except.ok request ∧
      request.site_name = some sites := by
  cases hval : validate raw with
  | error errs =>
    exfalso
    unfold validate at hval
    rw [hok] at hval
    simp at hval
  | ok request =>
    refine ⟨request, rfl, ?_⟩
    unfold validate at hval
    rw [hok] at hval
    simp only [Except.ok.injEq] at hval
    subst hval
    simp [hs]

/-- Witness for the amended C7 at the concrete empty-list body. -/
theorem site_name_unconstrained_witness :
    ∃ request, validate rawEmptySites = Except.ok request ∧
      request.site_name = some [] :=
  site_name_unconstrained rawEmptySites [] rfl rfl

/-- Claim C8: `GET /sites` is a constant function of the runtime state —
any two calls return identical CapabilitiesDocument values. -/
theorem capabilities_constant (w₁ w₂ : World) :
    get_supported_sites w₁ = get_supported_sites w₂ := rfl

/-- Witness for C8 at two distinct concrete clock states. -/
theorem capabilities_constant_witness :
    get_supported_sites ⟨"2026-10-12T00:00:00"⟩ =
      get_supported_sites ⟨"2027-01-01T12:34:56"⟩ :=
  capabilities_constant ⟨"2026-10-12T00:00:00"⟩ ⟨"2027-01-01T12:34:56"⟩

/-- Claim C9: `GET /` and `GET /health` always succeed (they are total
functions into `HealthResponse`) with status `"healthy"`, version
`"1.0.0"`, and timestamp equal to the clock reading at call time. -/
theorem health_endpoints_fixed_literals (w : World) :
    (root w).status = "healthy" ∧ (root w).version = "1.0.0" ∧
    (root w).timestamp = w.now ∧
    (health_check w).status = "healthy" ∧
    (health_check w).version = "1.0.0" ∧
    (health_check w).timestamp = w.now :=
  ⟨rfl, rfl, rfl, rfl, rfl, rfl⟩

/-- Witness for C9 at a concrete clock state. -/
theorem health_endpoints_fixed_literals_witness :
    (root ⟨"2026-10-12T00:00:00"⟩).status = "healthy" ∧
    (root ⟨"2026-10-12T00:00:00"⟩).version = "1.0.0" ∧
    (root ⟨"2026-10-12T00:00:00"⟩).timestamp = "2026-10-12T00:00:00" ∧
    (health_check ⟨"2026-10-12T00:00:00"⟩).status = "healthy" ∧
    (health_check ⟨"2026-10-12T00:00:00"⟩).version = "1.0.0" ∧
    (health_check ⟨"2026-10-12T00:00:00"⟩).timestamp = "2026-10-12T00:00:00" :=
  health_endpoints_fixed_literals ⟨"2026-10-12T00:00:00"⟩

end JobSpyApi
